import Mathlib

/-!
Shallow embedding of `puzzmo-com/revenue-cat-webhook-types` (src/index.d.ts).

The repository is a set of TypeScript structural type declarations for the
RevenueCat webhook payloads.  `src/index.d.ts` holds two maintained snapshots
of the model, separated by a related-document marker: the first (current)
snapshot wraps the event union under `{api_version, event}` and includes the
TRANSFER variant; the second (older, flattened) snapshot exposes the union at
the top level and has no TRANSFER variant.

We embed the declarations as conformance predicates over a JSON value model:
each TypeScript interface becomes a list of field specifications (name,
field type, optional flag), and `conform` decides whether a JSON value
matches a field type.  The discriminator-based `Narrow` operation is not in
the source (the repository has no executable code); it is modelled from the
spec, as marked on its definition.
-/

namespace RevenueCat

/-- JSON-like values: the payloads the declarations describe.  Numbers are
modelled as rationals (JSON numbers are decimal literals). -/
inductive JValue where
  | null : JValue
  | bool : Bool → JValue
  | num : Rat → JValue
  | str : String → JValue
  | arr : List JValue → JValue
  | obj : List (String × JValue) → JValue

/-- An object body: an association list of keys and values. -/
abbrev JObject := List (String × JValue)

/-- First binding of a key in an object body, if any. -/
def jLookup : JObject → String → Option JValue
  | [], _ => none
  | (k, v) :: rest, key => if k = key then some v else jLookup rest key

/-- Removes every binding of a key from an object body. -/
def removeKey (fields : JObject) (key : String) : JObject :=
  fields.filter (fun kv => !(kv.1 == key))

/-- Transcribed from `type Store` (src/index.d.ts): the store enumeration. -/
def storeValues : List String :=
  ["AMAZON", "APP_STORE", "MAC_APP_STORE", "PLAY_STORE", "PROMOTIONAL", "STRIPE"]

/-- Transcribed from `type Environment` (src/index.d.ts). -/
def environmentValues : List String :=
  ["SANDBOX", "PRODUCTION"]

/-- Transcribed from `type CancelReason` (src/index.d.ts, current snapshot). -/
def cancelReasonValues : List String :=
  ["UNSUBSCRIBE", "BILLING_ERROR", "DEVELOPER_INITIATED", "PRICE_INCREASE",
   "CUSTOMER_SUPPORT", "UNKNOWN"]

/-- Transcribed from `type ExpirationReason` (src/index.d.ts, current
snapshot), which lists the cancel reasons plus SUBSCRIPTION_PAUSED. -/
def expirationReasonValues : List String :=
  ["UNSUBSCRIBE", "BILLING_ERROR", "DEVELOPER_INITIATED", "PRICE_INCREASE",
   "CUSTOMER_SUPPORT", "SUBSCRIPTION_PAUSED", "UNKNOWN"]

/-- Transcribed from the older snapshot's `type ExpirationReason`
(the related-document region of src/index.d.ts): it has no
SUBSCRIPTION_PAUSED value and coincides with CancelReason. -/
def expirationReasonValuesSnapshot2 : List String :=
  ["UNSUBSCRIBE", "BILLING_ERROR", "DEVELOPER_INITIATED", "PRICE_INCREASE",
   "CUSTOMER_SUPPORT", "UNKNOWN"]

/-- The TypeScript type annotations that occur on fields of the declared
interfaces, one constructor per distinct annotation. -/
inductive FieldTy where
  | str : FieldTy
  | num : FieldTy
  | bool : FieldTy
  | strNullable : FieldTy
  | numNullable : FieldTy
  | strList : FieldTy
  | strListNullable : FieldTy
  | attributes : FieldTy
  | store : FieldTy
  | environment : FieldTy
  | cancelReason : FieldTy
  | expirationReason : FieldTy
  | anyTy : FieldTy
  | lit : String → FieldTy
deriving DecidableEq

/-- A declared field: name, type annotation, and whether the key is optional
(marked with a question mark in the source). -/
abbrev FieldSpec := String × FieldTy × Bool

def isNull : JValue → Bool
  | JValue.null => true
  | _ => false

def isStr : JValue → Bool
  | JValue.str _ => true
  | _ => false

def isNum : JValue → Bool
  | JValue.num _ => true
  | _ => false

def isBool : JValue → Bool
  | JValue.bool _ => true
  | _ => false

def isStrList : JValue → Bool
  | JValue.arr xs => xs.all isStr
  | _ => false

/-- Matches the entry type of `Attributes`: `{updated_at_ms: number, value: string}`. -/
def isAttrEntry : JValue → Bool
  | JValue.obj kvs =>
    (match jLookup kvs "updated_at_ms" with
     | some x => isNum x
     | none => false) &&
    (match jLookup kvs "value" with
     | some x => isStr x
     | none => false)
  | _ => false

/-- Matches `Attributes = Record<string, {updated_at_ms, value}>`. -/
def isAttributes : JValue → Bool
  | JValue.obj kvs => kvs.all (fun kv => isAttrEntry kv.2)
  | _ => false

/-- Matches a string literal union member drawn from the given value list. -/
def isEnumOf (vals : List String) : JValue → Bool
  | JValue.str s => vals.contains s
  | _ => false

/-- Matches a fixed string literal type. -/
def isLit (s : String) : JValue → Bool
  | JValue.str u => s == u
  | _ => false

/-- Conformance of a JSON value to a TypeScript field type annotation. -/
def conform (ty : FieldTy) (v : JValue) : Bool :=
  match ty with
  | FieldTy.str => isStr v
  | FieldTy.num => isNum v
  | FieldTy.bool => isBool v
  | FieldTy.strNullable => isNull v || isStr v
  | FieldTy.numNullable => isNull v || isNum v
  | FieldTy.strList => isStrList v
  | FieldTy.strListNullable => isNull v || isStrList v
  | FieldTy.attributes => isAttributes v
  | FieldTy.store => isEnumOf storeValues v
  | FieldTy.environment => isEnumOf environmentValues v
  | FieldTy.cancelReason => isEnumOf cancelReasonValues v
  | FieldTy.expirationReason => isEnumOf expirationReasonValues v
  | FieldTy.anyTy => true
  | FieldTy.lit s => isLit s v

/-- A single declared field checks against an object body: a present key must
conform to the annotation; an absent key is allowed only when optional. -/
def checkField (v : JObject) : FieldSpec → Bool
  | (n, ty, opt) =>
    match jLookup v n with
    | some jv => conform ty jv
    | none => opt

/-- An object body conforms to a declared interface when every declared field
checks (extra keys are permitted, as in structural typing). -/
def checkFields (fs : List FieldSpec) (v : JObject) : Bool :=
  fs.all (checkField v)

/-- Transcribed from `interface WebhookBase` (src/index.d.ts, current
snapshot, lines 33-156), fields in source order.  Note `expiration_at_ms` is
declared as plain `number` even though its doc comment says it can be NULL
for non-subscription purchases. -/
def webhookBaseFields : List FieldSpec :=
  [("id", FieldTy.str, false),
   ("app_id", FieldTy.str, false),
   ("event_timestamp_ms", FieldTy.num, false),
   ("product_id", FieldTy.str, false),
   ("period_type", FieldTy.str, false),
   ("purchased_at_ms", FieldTy.num, false),
   ("expiration_at_ms", FieldTy.num, false),
   ("environment", FieldTy.environment, false),
   ("entitlement_id", FieldTy.strNullable, false),
   ("entitlement_ids", FieldTy.strListNullable, false),
   ("presented_offering_id", FieldTy.strNullable, false),
   ("transaction_id", FieldTy.str, false),
   ("original_transaction_id", FieldTy.str, false),
   ("is_family_share", FieldTy.bool, false),
   ("country_code", FieldTy.str, false),
   ("app_user_id", FieldTy.str, false),
   ("aliases", FieldTy.strList, false),
   ("original_app_user_id", FieldTy.str, false),
   ("currency", FieldTy.str, false),
   ("price", FieldTy.numNullable, false),
   ("price_in_purchased_currency", FieldTy.numNullable, false),
   ("renewal_number", FieldTy.numNullable, false),
   ("subscriber_attributes", FieldTy.attributes, false),
   ("store", FieldTy.store, false),
   ("takehome_percentage", FieldTy.num, true),
   ("offer_code", FieldTy.strNullable, true),
   ("tax_percentage", FieldTy.num, true),
   ("commission_percentage", FieldTy.num, true),
   ("metadata", FieldTy.anyTy, false)]

/-- `interface WebhookInitialPurchase extends WebhookBase`. -/
def webhookInitialPurchaseFields : List FieldSpec :=
  ("type", FieldTy.lit "INITIAL_PURCHASE", false) :: webhookBaseFields

/-- `interface WebhookRenewal extends WebhookBase` with `is_trial_conversion`. -/
def webhookRenewalFields : List FieldSpec :=
  ("type", FieldTy.lit "RENEWAL", false) ::
  ("is_trial_conversion", FieldTy.bool, false) :: webhookBaseFields

/-- `interface WebhookCancellation extends WebhookBase` with `cancel_reason`. -/
def webhookCancellationFields : List FieldSpec :=
  ("type", FieldTy.lit "CANCELLATION", false) ::
  ("cancel_reason", FieldTy.cancelReason, false) :: webhookBaseFields

/-- `interface WebhookUnCancellation extends WebhookBase`. -/
def webhookUnCancellationFields : List FieldSpec :=
  ("type", FieldTy.lit "UNCANCELLATION", false) :: webhookBaseFields

/-- `interface WebhookNonRenewingPurchase extends WebhookBase`. -/
def webhookNonRenewingPurchaseFields : List FieldSpec :=
  ("type", FieldTy.lit "NON_RENEWING_PURCHASE", false) :: webhookBaseFields

/-- `interface WebhookExpiration extends WebhookBase` with `expiration_reason`. -/
def webhookExpirationFields : List FieldSpec :=
  ("type", FieldTy.lit "EXPIRATION", false) ::
  ("expiration_reason", FieldTy.expirationReason, false) :: webhookBaseFields

/-- `interface WebhookSubscriptionPaused extends WebhookBase` with
`expiration_reason` and the optional `auto_resume_at_ms`. -/
def webhookSubscriptionPausedFields : List FieldSpec :=
  ("type", FieldTy.lit "SUBSCRIPTION_PAUSED", false) ::
  ("expiration_reason", FieldTy.expirationReason, false) ::
  ("auto_resume_at_ms", FieldTy.num, true) :: webhookBaseFields

/-- `interface WebhookBillingIssue extends WebhookBase` with
`grace_period_expiration_at_ms: number | null`. -/
def webhookBillingIssueFields : List FieldSpec :=
  ("type", FieldTy.lit "BILLING_ISSUE", false) ::
  ("grace_period_expiration_at_ms", FieldTy.numNullable, false) :: webhookBaseFields

/-- `interface WebhookProductChange extends WebhookBase` with the optional
`new_product_id?: string`. -/
def webhookProductChangeFields : List FieldSpec :=
  ("type", FieldTy.lit "PRODUCT_CHANGE", false) ::
  ("new_product_id", FieldTy.str, true) :: webhookBaseFields

/-- `interface WebhookSubscriptionExtended extends WebhookBase`. -/
def webhookSubscriptionExtendedFields : List FieldSpec :=
  ("type", FieldTy.lit "SUBSCRIPTION_EXTENDED", false) :: webhookBaseFields

/-- `interface WebhookTemporaryEntitlementGrant` (current snapshot, lines
323-373): it does not extend WebhookBase and carries a reduced field set. -/
def webhookTemporaryEntitlementGrantFields : List FieldSpec :=
  [("type", FieldTy.lit "TEMPORARY_ENTITLEMENT_GRANT", false),
   ("id", FieldTy.str, false),
   ("app_user_id", FieldTy.str, false),
   ("purchased_at_ms", FieldTy.num, false),
   ("expiration_at_ms", FieldTy.num, false),
   ("event_timestamp_ms", FieldTy.num, false),
   ("product_id", FieldTy.str, false),
   ("entitlement_ids", FieldTy.strListNullable, false),
   ("store", FieldTy.store, false),
   ("transaction_id", FieldTy.str, false)]

/-- `interface WebhookTransfer` (current snapshot, lines 380-407): it does
not extend WebhookBase. -/
def webhookTransferFields : List FieldSpec :=
  [("type", FieldTy.lit "TRANSFER", false),
   ("id", FieldTy.str, false),
   ("app_id", FieldTy.str, false),
   ("environment", FieldTy.environment, false),
   ("store", FieldTy.store, false),
   ("event_timestamp_ms", FieldTy.num, false),
   ("transferred_from", FieldTy.strList, false),
   ("transferred_to", FieldTy.strList, false)]

/-- The twelve member tags of the event union of the current snapshot
(`Webhook.event`, src/index.d.ts lines 15-27), in union order. -/
def webhookUnionTags : List String :=
  ["INITIAL_PURCHASE", "RENEWAL", "CANCELLATION", "UNCANCELLATION",
   "NON_RENEWING_PURCHASE", "EXPIRATION", "SUBSCRIPTION_PAUSED", "BILLING_ISSUE",
   "PRODUCT_CHANGE", "SUBSCRIPTION_EXTENDED", "TEMPORARY_ENTITLEMENT_GRANT",
   "TRANSFER"]

/-- The member tags of the flattened `Webhook` union of the older snapshot
(the related-document region of src/index.d.ts): eleven members, with no
TRANSFER variant. -/
def webhookUnionTagsSnapshot2 : List String :=
  ["INITIAL_PURCHASE", "RENEWAL", "CANCELLATION", "UNCANCELLATION",
   "NON_RENEWING_PURCHASE", "EXPIRATION", "SUBSCRIPTION_PAUSED", "BILLING_ISSUE",
   "PRODUCT_CHANGE", "SUBSCRIPTION_EXTENDED", "TEMPORARY_ENTITLEMENT_GRANT"]

/-- The ten tags whose shapes extend the common envelope (WebhookBase). -/
def envelopeTags : List String :=
  ["INITIAL_PURCHASE", "RENEWAL", "CANCELLATION", "UNCANCELLATION",
   "NON_RENEWING_PURCHASE", "EXPIRATION", "SUBSCRIPTION_PAUSED", "BILLING_ISSUE",
   "PRODUCT_CHANGE", "SUBSCRIPTION_EXTENDED"]

/-- The declared interface for each tag of the current snapshot's union. -/
def shapeFields : String → List FieldSpec
  | "INITIAL_PURCHASE" => webhookInitialPurchaseFields
  | "RENEWAL" => webhookRenewalFields
  | "CANCELLATION" => webhookCancellationFields
  | "UNCANCELLATION" => webhookUnCancellationFields
  | "NON_RENEWING_PURCHASE" => webhookNonRenewingPurchaseFields
  | "EXPIRATION" => webhookExpirationFields
  | "SUBSCRIPTION_PAUSED" => webhookSubscriptionPausedFields
  | "BILLING_ISSUE" => webhookBillingIssueFields
  | "PRODUCT_CHANGE" => webhookProductChangeFields
  | "SUBSCRIPTION_EXTENDED" => webhookSubscriptionExtendedFields
  | "TEMPORARY_ENTITLEMENT_GRANT" => webhookTemporaryEntitlementGrantFields
  | "TRANSFER" => webhookTransferFields
  | _ => []

/-- Modelled from the spec: the structured outcomes of the `Narrow`
operation, which the repository (declarations only) does not implement.
Section 7 of the spec names the two recoverable error kinds, and section 4.1
asks that a recognized tag with malformed fields report its violations. -/
inductive NarrowResult where
  | ok : String → JObject → NarrowResult
  | unknownEventType : NarrowResult
  | malformedShape : List String → NarrowResult

/-- Names of the declared fields that are missing or ill-typed on an object,
in declaration order. -/
def violationsOf (fs : List FieldSpec) (v : JObject) : List String :=
  (fs.filter (fun f => !(checkField v f))).map (fun f => f.1)

/-- Modelled from the spec: the tag-dispatch step of `Narrow` (spec section
4.1), applied once the `type` discriminator string has been read. -/
def narrowTag (t : String) (fields : JObject) : NarrowResult :=
  if webhookUnionTags.contains t then
    let vs := violationsOf (shapeFields t) fields
    if vs.isEmpty then NarrowResult.ok t fields
    else NarrowResult.malformedShape vs
  else NarrowResult.unknownEventType

/-- Modelled from the spec: `Narrow(event) -> variant` (spec section 4.1).
The source repository has no executable narrowing helper; this follows the
spec's words: read the `type` discriminator, return UnknownEventType when it
is not one of the twelve known literals, otherwise validate the declared
fields of that shape and return either the narrowed value or MalformedShape
with the violated field names. -/
def Narrow (fields : JObject) : NarrowResult :=
  match jLookup fields "type" with
  | some (JValue.str t) => narrowTag t fields
  | _ => NarrowResult.unknownEventType

/-- True exactly on a MalformedShape result naming the one given field. -/
def isMalformedOn (n : String) : NarrowResult → Bool
  | NarrowResult.malformedShape vs => vs == [n]
  | _ => false

/-- True exactly on a successful narrowing result. -/
def isOk : NarrowResult → Bool
  | NarrowResult.ok _ _ => true
  | _ => false

/-- The RENEWAL example object of the spec (section 8, end-to-end example),
with exactly the keys the spec gives, in the spec's order. -/
def exampleRenewalFields : JObject :=
  [("type", JValue.str "RENEWAL"),
   ("id", JValue.str "evt_1"),
   ("app_id", JValue.str "app_1"),
   ("event_timestamp_ms", JValue.num 1000),
   ("product_id", JValue.str "p1"),
   ("period_type", JValue.str "NORMAL"),
   ("purchased_at_ms", JValue.num 900),
   ("expiration_at_ms", JValue.num 2000),
   ("environment", JValue.str "PRODUCTION"),
   ("entitlement_ids", JValue.arr [JValue.str "pro"]),
   ("transaction_id", JValue.str "t1"),
   ("original_transaction_id", JValue.str "t1"),
   ("is_family_share", JValue.bool false),
   ("country_code", JValue.str "US"),
   ("app_user_id", JValue.str "u1"),
   ("aliases", JValue.arr [JValue.str "u1"]),
   ("original_app_user_id", JValue.str "u1"),
   ("currency", JValue.str "USD"),
   ("price", JValue.num (999 / 100)),
   ("price_in_purchased_currency", JValue.num (999 / 100)),
   ("subscriber_attributes", JValue.obj []),
   ("store", JValue.str "APP_STORE"),
   ("is_trial_conversion", JValue.bool true)]

/-- The spec's RENEWAL example extended with the four required nullable keys
it lacks (each set to null). -/
def exampleRenewalFullFields : JObject :=
  exampleRenewalFields ++
  [("entitlement_id", JValue.null),
   ("presented_offering_id", JValue.null),
   ("renewal_number", JValue.null),
   ("metadata", JValue.null)]

/-- The completed RENEWAL example with `expiration_at_ms` set to null, as a
non-subscription purchase would be delivered. -/
def nullExpirationSample : JObject :=
  ("expiration_at_ms", JValue.null) :: removeKey exampleRenewalFullFields "expiration_at_ms"

/-- A complete envelope object body (no `type` key): the completed RENEWAL
example minus the RENEWAL-only key. -/
def baseSampleFields : JObject :=
  removeKey (removeKey exampleRenewalFullFields "type") "is_trial_conversion"

/-- A valid TRANSFER sample carrying exactly the declared fields. -/
def transferSampleFields : JObject :=
  [("type", JValue.str "TRANSFER"),
   ("id", JValue.str "evt_2"),
   ("app_id", JValue.str "app_1"),
   ("environment", JValue.str "PRODUCTION"),
   ("store", JValue.str "APP_STORE"),
   ("event_timestamp_ms", JValue.num 1000),
   ("transferred_from", JValue.arr [JValue.str "old_user"]),
   ("transferred_to", JValue.arr [JValue.str "new_user"])]

/-- A valid TEMPORARY_ENTITLEMENT_GRANT sample carrying exactly the declared
fields, with `entitlement_ids` null. -/
def tegSampleFields : JObject :=
  [("type", JValue.str "TEMPORARY_ENTITLEMENT_GRANT"),
   ("id", JValue.str "evt_3"),
   ("app_user_id", JValue.str "u1"),
   ("purchased_at_ms", JValue.num 900),
   ("expiration_at_ms", JValue.num 2000),
   ("event_timestamp_ms", JValue.num 1000),
   ("product_id", JValue.str "p1"),
   ("entitlement_ids", JValue.null),
   ("store", JValue.str "APP_STORE"),
   ("transaction_id", JValue.str "t3")]

/-- A PRODUCT_CHANGE sample with the `new_product_id` key present. -/
def productChangeWithFields : JObject :=
  ("type", JValue.str "PRODUCT_CHANGE") ::
  ("new_product_id", JValue.str "p2") :: baseSampleFields

/-- A PRODUCT_CHANGE sample with the `new_product_id` key entirely absent. -/
def productChangeWithoutFields : JObject :=
  ("type", JValue.str "PRODUCT_CHANGE") :: baseSampleFields

/-- A CANCELLATION sample missing its required `cancel_reason` field. -/
def cancellationMissingReasonFields : JObject :=
  ("type", JValue.str "CANCELLATION") :: baseSampleFields

/-- An INITIAL_PURCHASE sample whose two price fields are null. -/
def priceNullSample : JObject :=
  ("type", JValue.str "INITIAL_PURCHASE") ::
  ("price", JValue.null) ::
  ("price_in_purchased_currency", JValue.null) ::
  removeKey (removeKey baseSampleFields "price") "price_in_purchased_currency"

/-- A required field that checks against an object is present and conforms. -/
theorem checkField_required {v : JObject} {n : String} {ty : FieldTy}
    (h : checkField v (n, ty, false) = true) :
    ∃ jv, jLookup v n = some jv ∧ conform ty jv = true := by
  simp only [checkField] at h
  cases hl : jLookup v n with
  | none => rw [hl] at h; cases h
  | some jv => rw [hl] at h; exact ⟨jv, rfl, h⟩

/-- Every required field of a shape that an object conforms to is present on
the object with a conforming value. -/
theorem checkFields_required {fs : List FieldSpec} {v : JObject} {n : String}
    {ty : FieldTy} (hmem : (n, ty, false) ∈ fs)
    (hchk : checkFields fs v = true) :
    ∃ jv, jLookup v n = some jv ∧ conform ty jv = true := by
  have hall : fs.all (checkField v) = true := hchk
  exact checkField_required (List.all_eq_true.mp hall _ hmem)

/-- A value conforming to a string literal type is that string. -/
theorem conform_lit_eq {s : String} {jv : JValue}
    (h : conform (FieldTy.lit s) jv = true) : jv = JValue.str s := by
  cases jv <;> simp_all [conform, isLit]

/-- Each tag of the current union names a shape whose `type` field is the
required literal of that very tag. -/
theorem tag_field_mem {t : String} (h : t ∈ webhookUnionTags) :
    ("type", FieldTy.lit t, false) ∈ shapeFields t := by
  simp only [webhookUnionTags, List.mem_cons, List.not_mem_nil, or_false] at h
  rcases h with rfl | rfl | rfl | rfl | rfl | rfl | rfl | rfl | rfl | rfl | rfl | rfl <;>
    decide

/-- Claim C1 (corrected), counterexample: the claim asserts twelve variants
in every maintained snapshot, but the older snapshot's flattened `Webhook`
union has only eleven members and omits the TRANSFER variant. -/
theorem snapshot2_union_has_eleven_variants :
    webhookUnionTagsSnapshot2.length = 11 ∧
    "TRANSFER" ∉ webhookUnionTagsSnapshot2 := by
  decide

/-- Claim C1 (amended): the current snapshot's event union is a closed
discriminated union of exactly twelve variants, one per documented tag, each
variant carrying a required literal `type` field equal to its tag; the older
snapshot's union consists of the same tags with TRANSFER removed. -/
theorem webhook_union_twelve_variants :
    webhookUnionTags =
      ["INITIAL_PURCHASE", "RENEWAL", "CANCELLATION", "UNCANCELLATION",
       "NON_RENEWING_PURCHASE", "EXPIRATION", "SUBSCRIPTION_PAUSED",
       "BILLING_ISSUE", "PRODUCT_CHANGE", "SUBSCRIPTION_EXTENDED",
       "TEMPORARY_ENTITLEMENT_GRANT", "TRANSFER"] ∧
    webhookUnionTags.length = 12 ∧
    (webhookUnionTags.all fun t =>
      (shapeFields t).contains ("type", FieldTy.lit t, false)) = true ∧
    webhookUnionTagsSnapshot2 = webhookUnionTags.filter (fun t => !(t == "TRANSFER")) := by
  refine ⟨rfl, rfl, ?_, rfl⟩
  decide

/-- Claim C2: a string is an ExpirationReason value exactly when it is a
CancelReason value or the extra SUBSCRIPTION_PAUSED value (current snapshot
enumerations). -/
theorem expirationReason_extends_cancelReason (v : String) :
    v ∈ expirationReasonValues ↔ v ∈ cancelReasonValues ∨ v = "SUBSCRIPTION_PAUSED" := by
  simp only [expirationReasonValues, cancelReasonValues, List.mem_cons,
    List.not_mem_nil, or_false]
  tauto

/-- Claim C2, instance at the distinguishing value SUBSCRIPTION_PAUSED. -/
theorem expirationReason_extends_cancelReason_witness :
    "SUBSCRIPTION_PAUSED" ∈ expirationReasonValues ↔
      "SUBSCRIPTION_PAUSED" ∈ cancelReasonValues ∨
      "SUBSCRIPTION_PAUSED" = "SUBSCRIPTION_PAUSED" :=
  expirationReason_extends_cancelReason "SUBSCRIPTION_PAUSED"

/-- Claim C3 (code bug): the declarations type `expiration_at_ms` as plain
`number` in the common envelope, so a null expiration value does not conform
and narrowing reports it as the sole violation, although the field's own doc
comment (and the spec) say it can be NULL for non-subscription purchases;
`purchased_at_ms` is indeed a required non-null number. -/
theorem expiration_at_ms_rejects_null :
    ("expiration_at_ms", FieldTy.num, false) ∈ webhookBaseFields ∧
    ("purchased_at_ms", FieldTy.num, false) ∈ webhookBaseFields ∧
    conform FieldTy.num JValue.null = false ∧
    Narrow nullExpirationSample = NarrowResult.malformedShape ["expiration_at_ms"] :=
  ⟨by decide, by decide, rfl, rfl⟩

/-- Claim C4: the TRANSFER shape declares exactly the eight fields {type, id,
app_id, environment, store, event_timestamp_ms, transferred_from,
transferred_to}, has no app_user_id and no envelope-only fields, a sample
with exactly those fields narrows successfully, and dropping any one of the
seven non-type fields yields a MalformedShape naming it. -/
theorem transfer_exact_field_set :
    webhookTransferFields.map (fun f => f.1) =
      ["type", "id", "app_id", "environment", "store", "event_timestamp_ms",
       "transferred_from", "transferred_to"] ∧
    "app_user_id" ∉ webhookTransferFields.map (fun f => f.1) ∧
    "price" ∉ webhookTransferFields.map (fun f => f.1) ∧
    "currency" ∉ webhookTransferFields.map (fun f => f.1) ∧
    shapeFields "TRANSFER" = webhookTransferFields ∧
    Narrow transferSampleFields = NarrowResult.ok "TRANSFER" transferSampleFields ∧
    (["id", "app_id", "environment", "store", "event_timestamp_ms",
      "transferred_from", "transferred_to"].all fun n =>
        isMalformedOn n (Narrow (removeKey transferSampleFields n))) = true :=
  ⟨rfl, by decide, by decide, by decide, rfl, rfl, rfl⟩

/-- Claim C5: the TEMPORARY_ENTITLEMENT_GRANT shape declares exactly the ten
reduced fields (including a required `id` and a nullable `entitlement_ids`),
carries no envelope-only fields such as app_id, price or currency, and a
sample with exactly those fields (entitlement_ids null) narrows
successfully. -/
theorem teg_reduced_field_set :
    webhookTemporaryEntitlementGrantFields.map (fun f => f.1) =
      ["type", "id", "app_user_id", "purchased_at_ms", "expiration_at_ms",
       "event_timestamp_ms", "product_id", "entitlement_ids", "store",
       "transaction_id"] ∧
    ("id", FieldTy.str, false) ∈ webhookTemporaryEntitlementGrantFields ∧
    ("entitlement_ids", FieldTy.strListNullable, false) ∈
      webhookTemporaryEntitlementGrantFields ∧
    "app_id" ∉ webhookTemporaryEntitlementGrantFields.map (fun f => f.1) ∧
    "price" ∉ webhookTemporaryEntitlementGrantFields.map (fun f => f.1) ∧
    "currency" ∉ webhookTemporaryEntitlementGrantFields.map (fun f => f.1) ∧
    conform FieldTy.strListNullable JValue.null = true ∧
    Narrow tegSampleFields =
      NarrowResult.ok "TEMPORARY_ENTITLEMENT_GRANT" tegSampleFields :=
  ⟨rfl, by decide, by decide, by decide, by decide, by decide, rfl, rfl⟩

/-- Claim C6: on every envelope-carrying variant, `price` and
`price_in_purchased_currency` are required fields of nullable numeric type,
and that type accepts null, zero and negative numbers; a sample with both
prices null narrows successfully. -/
theorem envelope_prices_nullable :
    (envelopeTags.all fun t =>
      (shapeFields t).contains ("price", FieldTy.numNullable, false) &&
      (shapeFields t).contains ("price_in_purchased_currency", FieldTy.numNullable, false))
      = true ∧
    conform FieldTy.numNullable JValue.null = true ∧
    conform FieldTy.numNullable (JValue.num 0) = true ∧
    conform FieldTy.numNullable (JValue.num (-(999 / 100))) = true ∧
    Narrow priceNullSample = NarrowResult.ok "INITIAL_PURCHASE" priceNullSample :=
  ⟨by decide, rfl, rfl, rfl, rfl⟩

/-- Claim C7: the PRODUCT_CHANGE shape declares `new_product_id` as an
optional string field, and both a sample carrying it as a string and a
sample lacking the key entirely narrow successfully. -/
theorem product_change_new_product_id_optional :
    ("new_product_id", FieldTy.str, true) ∈ webhookProductChangeFields ∧
    shapeFields "PRODUCT_CHANGE" = webhookProductChangeFields ∧
    Narrow productChangeWithFields =
      NarrowResult.ok "PRODUCT_CHANGE" productChangeWithFields ∧
    jLookup productChangeWithFields "new_product_id" = some (JValue.str "p2") ∧
    Narrow productChangeWithoutFields =
      NarrowResult.ok "PRODUCT_CHANGE" productChangeWithoutFields ∧
    jLookup productChangeWithoutFields "new_product_id" = none :=
  ⟨by decide, rfl, rfl, rfl, rfl, rfl⟩

/-- Claim C8: on any object whose `type` field holds a string that is not
one of the twelve known tags, Narrow returns UnknownEventType — never a
successful (default) shape — and that outcome differs from the
MalformedShape result produced for a recognized tag with a missing field
(exhibited on a CANCELLATION object lacking cancel_reason). -/
theorem narrow_unknown_event_type (fields : JObject) (t : String)
    (hlook : jLookup fields "type" = some (JValue.str t))
    (hunknown : webhookUnionTags.contains t = false) :
    Narrow fields = NarrowResult.unknownEventType ∧
    isOk (Narrow fields) = false ∧
    Narrow fields ≠ Narrow cancellationMissingReasonFields ∧
    Narrow cancellationMissingReasonFields =
      NarrowResult.malformedShape ["cancel_reason"] := by
  have h2 : Narrow cancellationMissingReasonFields =
      NarrowResult.malformedShape ["cancel_reason"] := rfl
  have hstep : Narrow fields = narrowTag t fields := by
    unfold Narrow
    rw [hlook]
  have h1 : Narrow fields = NarrowResult.unknownEventType := by
    rw [hstep]
    unfold narrowTag
    rw [hunknown]
    rfl
  refine ⟨h1, ?_, ?_, h2⟩
  · rw [h1]
    rfl
  · rw [h1, h2]
    exact fun h => NarrowResult.noConfusion h

/-- Claim C8, witness at the spec's example object {type: SOME_FUTURE_TYPE}. -/
theorem narrow_unknown_event_type_witness :
    Narrow [("type", JValue.str "SOME_FUTURE_TYPE")] = NarrowResult.unknownEventType ∧
    isOk (Narrow [("type", JValue.str "SOME_FUTURE_TYPE")]) = false ∧
    Narrow [("type", JValue.str "SOME_FUTURE_TYPE")] ≠
      Narrow cancellationMissingReasonFields ∧
    Narrow cancellationMissingReasonFields =
      NarrowResult.malformedShape ["cancel_reason"] :=
  narrow_unknown_event_type [("type", JValue.str "SOME_FUTURE_TYPE")]
    "SOME_FUTURE_TYPE" rfl rfl

/-- Claim C9 (corrected), counterexample: the spec's RENEWAL example object
does not conform to the declared RENEWAL shape — Narrow reports the four
required nullable keys the example omits, which are indeed absent from it. -/
theorem example_renewal_fails_narrow :
    Narrow exampleRenewalFields =
      NarrowResult.malformedShape
        ["entitlement_id", "presented_offering_id", "renewal_number", "metadata"] ∧
    jLookup exampleRenewalFields "entitlement_id" = none ∧
    jLookup exampleRenewalFields "presented_offering_id" = none ∧
    jLookup exampleRenewalFields "renewal_number" = none ∧
    jLookup exampleRenewalFields "metadata" = none :=
  ⟨rfl, rfl, rfl, rfl, rfl⟩

/-- Claim C9 (amended): once the four omitted required nullable keys
(entitlement_id, presented_offering_id, renewal_number, metadata) are added
with null values, the spec's RENEWAL example conforms to the RENEWAL shape
and Narrow succeeds on it, with is_trial_conversion accessible as true. -/
theorem example_renewal_completed_narrows :
    Narrow exampleRenewalFullFields =
      NarrowResult.ok "RENEWAL" exampleRenewalFullFields ∧
    jLookup exampleRenewalFullFields "is_trial_conversion" = some (JValue.bool true) ∧
    checkFields webhookRenewalFields exampleRenewalFullFields = true :=
  ⟨rfl, rfl, rfl⟩

/-- Claim C10: in both maintained unions the literal type tags are pairwise
distinct, and an object conforming to the shapes of two tags of the current
union forces the tags to be equal: the discriminator determines the variant
unambiguously. -/
theorem type_tag_determines_variant (fields : JObject) (t1 t2 : String)
    (h1 : t1 ∈ webhookUnionTags) (h2 : t2 ∈ webhookUnionTags)
    (c1 : checkFields (shapeFields t1) fields = true)
    (c2 : checkFields (shapeFields t2) fields = true) :
    t1 = t2 ∧ webhookUnionTags.Nodup ∧ webhookUnionTagsSnapshot2.Nodup := by
  refine ⟨?_, by decide, by decide⟩
  obtain ⟨jv1, hl1, hc1⟩ := checkFields_required (tag_field_mem h1) c1
  obtain ⟨jv2, hl2, hc2⟩ := checkFields_required (tag_field_mem h2) c2
  rw [conform_lit_eq hc1] at hl1
  rw [conform_lit_eq hc2] at hl2
  rw [hl1] at hl2
  simpa using hl2

/-- Claim C10, witness at the completed RENEWAL example. -/
theorem type_tag_determines_variant_witness :
    ("RENEWAL" : String) = "RENEWAL" ∧
    webhookUnionTags.Nodup ∧ webhookUnionTagsSnapshot2.Nodup :=
  type_tag_determines_variant exampleRenewalFullFields "RENEWAL" "RENEWAL"
    (by decide) (by decide) rfl rfl

end RevenueCat
